import Mathlib

/-!
# PricePulse client-state core — shallow embedding and verification

This file embeds the client-side state/normalization core of the PricePulse
frontend (`frontend/assets/js/app.js`, the API/auth modules) into Lean and
proves the specified properties about it.

Machine/JS conventions used throughout the embedding:
* JS numbers are modelled by `JSNum`: a finite rational, `NaN`, or an
  infinity.  All claims at hand concern only finiteness/comparison, for which
  this is exact.
* JS scalar values that may flow into price-like fields are modelled by
  `JSValue`.  A string is carried together with the `JSNum` that the JS
  `Number(...)` coercion would produce for it (shallow embedding of the
  platform string-to-number primitive).
* `null`/`undefined`-able string fields are modelled as `Option String`
  (`none` = absent/null/undefined); JS truthiness of such a field is
  `none`/`some ""` ↦ false.
-/

namespace PricePulse

/-- A JavaScript number: finite (exact rational), `NaN`, or `±Infinity`. -/
inductive JSNum where
  | finite (q : ℚ)
  | nan
  | posInf
  | negInf
deriving DecidableEq, Repr

/-- `Number.isFinite`. -/
def JSNum.isFinite : JSNum → Bool
  | .finite _ => true
  | _ => false

/-- JS `<=` on two numbers: any comparison with `NaN` is false;
`-Infinity` is below everything and `Infinity` above everything. -/
def jsLe : JSNum → JSNum → Bool
  | .nan, _ => false
  | _, .nan => false
  | .negInf, _ => true
  | _, .posInf => true
  | .posInf, _ => false
  | .finite _, .negInf => false
  | .finite a, .finite b => decide (a ≤ b)

/-- JS truthiness of a number: `0` and `NaN` are falsy. -/
def JSNum.truthy : JSNum → Bool
  | .finite q => decide (q ≠ 0)
  | .nan => false
  | _ => true

/-- A JS scalar value as it may appear in a raw API/demo item field.
A string carries the result of the JS `Number(...)` coercion on it. -/
inductive JSValue where
  | vUndef
  | vNull
  | vBool (b : Bool)
  | vNum (n : JSNum)
  | vStr (s : String) (coerced : JSNum)
deriving DecidableEq, Repr

/-- `typeof v === "number"`? -/
def JSValue.isNumber : JSValue → Bool
  | .vNum _ => true
  | _ => false

/-- The JS `Number(v)` coercion. -/
def JSValue.toNum : JSValue → JSNum
  | .vUndef => .nan
  | .vNull => .finite 0
  | .vBool b => .finite (if b then 1 else 0)
  | .vNum n => n
  | .vStr _ c => c

/-- JS truthiness of a scalar value. -/
def JSValue.truthy : JSValue → Bool
  | .vUndef => false
  | .vNull => false
  | .vBool b => b
  | .vNum n => n.truthy
  | .vStr s _ => decide (s ≠ "")

/-- Is the value nullish (`null` or `undefined`), as tested by JS `??`. -/
def JSValue.nullish : JSValue → Bool
  | .vUndef => true
  | .vNull => true
  | _ => false

/-- JS nullish coalescing `a ?? b`. -/
def jsCoalesce (a b : JSValue) : JSValue :=
  if a.nullish then b else a

/-- Truthiness of an optional string field (`none` models null/undefined). -/
def strTruthy : Option String → Bool
  | none => false
  | some s => decide (s ≠ "")

/-- JS `a || b` on two optional-string fields. -/
def jsOrStr (a b : Option String) : Option String :=
  if strTruthy a then a else b

/-- JS `a || d` where `d` is a string literal default. -/
def jsOrStrD (a : Option String) (d : String) : String :=
  match a with
  | some s => if s ≠ "" then s else d
  | none => d

/-- Is `pat` a prefix of `l`? -/
def startsWithL : List Char → List Char → Bool
  | [], _ => true
  | _ :: _, [] => false
  | p :: ps, c :: cs => p = c && startsWithL ps cs

/-- JS `\s` whitespace (the characters relevant to this code base). -/
def isJsWs (c : Char) : Bool :=
  c = ' ' || c = '\t' || c = '\n' || c = '\r'

/-- `String.prototype.toLowerCase()` (ASCII, character-wise). -/
def toLowerJs (s : String) : String := String.mk (s.data.map Char.toLower)

/-- `String.prototype.toUpperCase()` (ASCII, character-wise). -/
def toUpperJs (s : String) : String := String.mk (s.data.map Char.toUpper)

/-- `String.prototype.trim()`: strip leading and trailing whitespace. -/
def trimJs (s : String) : String :=
  String.mk (((s.data.dropWhile isJsWs).reverse.dropWhile isJsWs).reverse)

/-- `String.prototype.startsWith(pat)`. -/
def startsWithStr (pat s : String) : Bool := startsWithL pat.data s.data

/-- Source `toNumber` (app.js):
`value === null/undefined ↦ null`; numbers are kept as-is, anything else is
coerced with `Number(...)`; the result is returned only if finite, else null. -/
def toNumber (value : JSValue) : Option JSNum :=
  match value with
  | .vNull => none
  | .vUndef => none
  | v =>
      -- `typeof value === "number" ? value : Number(value)`: for a number the
      -- identity, otherwise the `Number(...)` coercion — both are `v.toNum`.
      let numeric := v.toNum
      if numeric.isFinite then some numeric else none

/-- Source `normalizeCurrencyCode` (app.js): non-strings and falsy values
become `null`; otherwise trim and upper-case. -/
def normalizeCurrencyCode (code : Option String) : Option String :=
  match code with
  | none => none
  | some s => if s = "" then none else some (toUpperJs (trimJs s))

/-- `word.charAt(0).toUpperCase() + word.slice(1)` — JS capitalization of one
word (empty word stays empty). -/
def capitalizeJs (w : String) : String :=
  match w.data with
  | [] => ""
  | c :: rest => String.mk (c.toUpper :: rest)

/-- `String.prototype.split(/\s+/)` walker: `cur` is the piece being built
(reversed) and `inWs` records whether the previous character belonged to a
whitespace run (whose piece was already flushed). -/
def splitWsFlag : List Char → List Char → Bool → List String
  | [], cur, _ => [String.mk cur.reverse]
  | c :: rest, cur, inWs =>
      if isJsWs c then
        if inWs then splitWsFlag rest cur true
        else String.mk cur.reverse :: splitWsFlag rest [] true
      else splitWsFlag rest (c :: cur) false

/-- JS `value.split(/\s+/)` — pieces between maximal whitespace runs, with an
empty piece at an end that touches whitespace (JS regex-split semantics). -/
def jsSplitWs (s : String) : List String :=
  splitWsFlag s.data [] false

/-- Source `toTitleCase` (app.js): falsy input gives `""`; otherwise split on
whitespace runs, capitalize each piece, join with single spaces. -/
def toTitleCase (value : String) : String :=
  if value = "" then ""
  else String.intercalate " " ((jsSplitWs value).map capitalizeJs)

/-- `String.prototype.replace(pat, repl)` with a string pattern: replace the
first occurrence only (core JS semantics used by the source). -/
def replaceFirstAux (pat repl : List Char) : List Char → List Char
  | [] => if startsWithL pat [] then repl else []
  | c :: cs =>
      if startsWithL pat (c :: cs) then repl ++ (c :: cs).drop pat.length
      else c :: replaceFirstAux pat repl cs

/-- String-level wrapper for `replaceFirstAux`. -/
def replaceFirstStr (pat repl s : String) : String :=
  String.mk (replaceFirstAux pat.data repl.data s.data)

/-- `String.prototype.split(sep)` for a one-character separator, keeping empty
pieces (JS semantics: `"a..b".split(".") = ["a","","b"]`). -/
def splitOnCharGo (sep : Char) : List Char → List Char → List String
  | [], cur => [String.mk cur.reverse]
  | c :: rest, cur =>
      if c = sep then String.mk cur.reverse :: splitOnCharGo sep rest []
      else splitOnCharGo sep rest (c :: cur)

/-- String-level wrapper for `splitOnCharGo`. -/
def splitOnChar (sep : Char) (s : String) : List String :=
  splitOnCharGo sep s.data []

/-- Source `formatStoreName` (app.js): falsy input gives `""`; otherwise split
on `"."`, drop empty and `"www"` segments, capitalize the rest, join with
spaces. -/
def formatStoreName (store : String) : String :=
  if store = "" then ""
  else
    String.intercalate " "
      (((splitOnChar '.' store).filter
          (fun seg => seg ≠ "" && toLowerJs seg ≠ "www")).map capitalizeJs)

/-- The regex `/\.[a-z0-9]+$/i` applied by `guessDetailsFromUrl`: strip one
trailing `.ext` where `ext` is a nonempty alphanumeric run. -/
def stripExt (s : String) : String :=
  let rev := s.data.reverse
  let ext := rev.takeWhile Char.isAlphanum
  match rev.drop ext.length with
  | '.' :: _ =>
      if ext.isEmpty then s
      else String.mk ((rev.drop (ext.length + 1)).reverse)
  | _ => s

/-- Is the character a dash or underscore (regex class `[-_]`)? -/
def isDashU (c : Char) : Bool := c = '-' || c = '_'

/-- The regex replace `/[-_]+/g → " "`: each maximal dash/underscore run
becomes a single space. -/
def collapseRunsGo : List Char → Bool → List Char
  | [], _ => []
  | c :: rest, inRun =>
      if isDashU c then
        if inRun then collapseRunsGo rest true
        else ' ' :: collapseRunsGo rest true
      else c :: collapseRunsGo rest false

/-- String-level wrapper for `collapseRunsGo`. -/
def collapseDashRuns (s : String) : String :=
  String.mk (collapseRunsGo s.data false)

/-- JS `a || d` on plain strings. -/
def jsOrD (a d : String) : String :=
  if a ≠ "" then a else d

/-- Hostname and pathname of a parsed URL. -/
structure UrlParts where
  hostname : String
  pathname : String
deriving DecidableEq, Repr

/-- Characters ending the authority component. -/
def endsAuthority (c : Char) : Bool := c = '/' || c = '?' || c = '#'

/-- `new URL(s)` — model of the platform URL parser for the absolute
`scheme://host/path` URLs this code base produces. A missing `"://"`, an
empty or space-containing host, or a (not modelled) userinfo part counts as
a parse failure; the hostname is lower-cased, a port is dropped, and the
pathname defaults to `"/"`. -/
def parseUrl (s : String) : Option UrlParts :=
  let cs := s.data
  let scheme := cs.takeWhile (fun c => c ≠ ':')
  let rest0 := cs.drop scheme.length
  match scheme with
  | [] => none
  | c0 :: _ =>
      if ¬ c0.isAlpha then none
      else if ¬ scheme.all (fun c => c.isAlphanum || c = '+' || c = '-' || c = '.') then none
      else if ¬ startsWithL [':', '/', '/'] rest0 then none
      else
        let afterScheme := rest0.drop 3
        let host0 := afterScheme.takeWhile (fun c => ¬ endsAuthority c)
        if host0.isEmpty then none
        else if host0.any (fun c => c = ' ' || c = '@') then none
        else
          let hostname := toLowerJs (String.mk (host0.takeWhile (fun c => c ≠ ':')))
          let pathRest := afterScheme.drop host0.length
          let path := pathRest.takeWhile (fun c => ¬ (c = '?' || c = '#'))
          some ⟨hostname, if path.isEmpty then "/" else String.mk path⟩

/-- The `{product_name, store}` record returned by `guessDetailsFromUrl`. -/
structure GuessResult where
  product_name : String
  store : String
deriving DecidableEq, Repr

/-- Source `guessDetailsFromUrl` (app.js): prefix `https://` when the raw url
does not start with `"http"`, parse, derive the store from the hostname, and
the name from the last non-empty path segment (extension stripped,
dash/underscore runs to spaces, trimmed, title-cased, falling back to the
store name). Parse failure gives `null`. -/
def guessDetailsFromUrl (rawUrl : String) : Option GuessResult :=
  let normalized := if startsWithStr "http" rawUrl then rawUrl else "https://" ++ rawUrl
  match parseUrl normalized with
  | none => none
  | some parsed =>
      let store := formatStoreName parsed.hostname
      let slug :=
        match ((splitOnChar '/' parsed.pathname).filter (fun seg => seg ≠ "")).getLast? with
        | some s => s
        | none => ""
      let cleaned := trimJs (collapseDashRuns (stripExt slug))
      some ⟨jsOrD (toTitleCase cleaned) store, store⟩

/-- String rendering of a number for the template literal in
`minutesToFrequencyLabel`; decimal formatting of non-integral rationals is
abstracted (no claim depends on it). -/
def JSNum.render : JSNum → String
  | .finite q => if q.den = 1 then toString q.num else toString q.num ++ "/" ++ toString q.den
  | .nan => "NaN"
  | .posInf => "Infinity"
  | .negInf => "-Infinity"

/-- JS template-literal stringification of a scalar value. -/
def JSValue.render : JSValue → String
  | .vUndef => "undefined"
  | .vNull => "null"
  | .vBool b => if b then "true" else "false"
  | .vNum n => n.render
  | .vStr s _ => s

/-- Source `minutesToFrequencyLabel` (app.js): falsy minutes give the default
label; otherwise the `Number(minutes)` key is looked up in the fixed table,
degrading to a literal `"N min"` label. -/
def minutesToFrequencyLabel (minutes : JSValue) : String :=
  if ¬ minutes.truthy then "Every 12 hours"
  else
    let n := minutes.toNum
    if n = .finite 360 then "Every 6 hours"
    else if n = .finite 480 then "Every 8 hours"
    else if n = .finite 720 then "Every 12 hours"
    else if n = .finite 1440 then "Daily"
    else if n = .finite 2880 then "Every 2 days"
    else minutes.render ++ " min"

/-- The status-text normalization applied by `normalizeApiItem`:
`toTitleCase((item.status || "Tracking").replace("_", " "))`. -/
def statusFromRaw (st : Option String) : String :=
  toTitleCase (replaceFirstStr "_" " " (jsOrStrD st "Tracking"))

/-- A raw watch item as received from the API or the demo store, before
normalization. Metadata fields that the source only ever reads as strings are
`Option String` (`none` = absent/null/undefined); price-like fields may hold
any JS scalar and are `JSValue`. -/
structure RawItem where
  item_id : Option String
  id : Option String
  product_name : Option String
  name : Option String
  store : Option String
  url : Option String
  last_price : JSValue
  current_price : JSValue
  target_price : JSValue
  targetPrice : JSValue
  last_checked : Option String
  lastChecked : Option String
  status : Option String
  added_by : Option String
  addedBy : Option String
  currency_code : Option String
  currency : Option String
  frequency : Option String
  frequency_minutes : JSValue
  last_notification : Option String
  lastNotification : Option String
  notification_email : Option String
  notification_phone : Option String
deriving DecidableEq, Repr

/-- A raw item with every field absent (`undefined`), used to build concrete
inputs. -/
def emptyRawItem : RawItem :=
  ⟨none, none, none, none, none, none, .vUndef, .vUndef, .vUndef, .vUndef,
   none, none, none, none, none, none, none, none, .vUndef, none, none,
   none, none⟩

/-- The canonical normalized watch item produced by `normalizeApiItem`. -/
structure NormItem where
  id : Option String
  name : String
  store : String
  url : Option String
  currentPrice : Option JSNum
  targetPrice : Option JSNum
  lastChecked : Option String
  status : String
  addedBy : String
  currency : Option String
  frequency : String
  lastNotification : Option String
  notificationEmail : Option String
  notificationPhone : Option String
deriving DecidableEq, Repr

/-- Source `normalizeApiItem` (app.js): `null`/`undefined` gives `null`;
otherwise the store is back-filled from the URL host (first `"www."`
occurrence removed, `"—"` on an unparseable URL), prices flow through
`toNumber`, currency through `normalizeCurrencyCode`, the status text through
`toTitleCase((status || "Tracking").replace("_", " "))`, and the frequency
label falls back to `minutesToFrequencyLabel`. -/
def normalizeApiItem (item : Option RawItem) : Option NormItem :=
  match item with
  | none => none
  | some it =>
      let derivedStore :=
        if strTruthy it.store then it.store
        else
          match it.url with
          | some u =>
              if u = "" then it.store
              else
                match parseUrl u with
                | some p => some (replaceFirstStr "www." "" p.hostname)
                | none => some "—"
          | none => it.store
      some
        { id := jsOrStr it.item_id it.id
          name := jsOrStrD (jsOrStr it.product_name it.name) "—"
          store := jsOrStrD derivedStore "—"
          url := it.url
          currentPrice := toNumber (jsCoalesce it.last_price it.current_price)
          targetPrice := toNumber (jsCoalesce it.target_price it.targetPrice)
          lastChecked := jsOrStr it.last_checked it.lastChecked
          status := statusFromRaw it.status
          addedBy := jsOrStrD (jsOrStr it.added_by it.addedBy) "—"
          currency := normalizeCurrencyCode (jsOrStr it.currency_code it.currency)
          frequency := jsOrStrD it.frequency (minutesToFrequencyLabel it.frequency_minutes)
          lastNotification := jsOrStr it.last_notification it.lastNotification
          notificationEmail := jsOrStr it.notification_email none
          notificationPhone := jsOrStr it.notification_phone none }

/-! ## Create/edit item flow (`handleAddItem` submit handler) -/

/-- A contact record from the preferences aggregate. -/
structure Contact where
  name : String
  email : String
  phone : String
deriving DecidableEq, Repr

/-- The contacts of `SAMPLE_DATA.preferences` (app.js). -/
def sampleContacts : List Contact :=
  [⟨"Ogulcan", "ogulcan@example.com", "+905551112233"⟩,
   ⟨"Muge", "muge@example.com", "+905551112244"⟩,
   ⟨"Basak", "basak@example.com", "+905551112255"⟩,
   ⟨"Guest", "guest@example.com", ""⟩]

/-- Source `getContacts` (app.js): `state.preferences?.contacts ||` the sample
contacts (`none` models an absent contacts field; an empty array is truthy in
JS and is kept). -/
def getContacts (prefsContacts : Option (List Contact)) : List Contact :=
  match prefsContacts with
  | some cs => cs
  | none => sampleContacts

/-- Source `getContactByName` (app.js): first contact with the given name,
falling back to the first contact named `"Guest"`. -/
def getContactByName (prefsContacts : Option (List Contact)) (nm : String) : Option Contact :=
  let contacts := getContacts prefsContacts
  match contacts.find? (fun c => c.name == nm) with
  | some c => some c
  | none => contacts.find? (fun c => c.name == "Guest")

/-- The add-item form fields as read by the submit handler. `FormData.get`
yields strings; the two price fields are carried as the `JSNum` that the JS
`Number(...)` coercion produces on the entered string. -/
structure AddItemForm where
  name : String
  store : String
  url : String
  addedBy : String
  frequency : String
  currencyCode : String
  currentPrice : JSNum
  targetPrice : JSNum
deriving DecidableEq, Repr

/-- The `newItem` object built by the add-item submit handler. -/
structure NewItem where
  id : String
  name : String
  store : String
  url : String
  currentPrice : JSNum
  targetPrice : JSNum
  currency : String
  lastChecked : String
  status : String
  addedBy : String
  notificationEmail : String
  frequency : String
  lastNotification : Option String
deriving DecidableEq, Repr

/-- The `newItem` construction in `handleAddItem`s submit handler (app.js):
`freshId` stands for the generated `itm-${Date.now()}` identifier and
`nowIso` for `new Date().toISOString()`. The status is the target-hit rule
`Number(currentPrice) <= Number(targetPrice) ? "Target hit" : "Tracking"`. -/
def buildNewItem (form : AddItemForm) (editingId : Option String)
    (freshId nowIso : String) (prefCurrency : Option String)
    (prefsContacts : Option (List Contact)) : NewItem :=
  let contact := getContactByName prefsContacts form.addedBy
  { id := match editingId with | some e => e | none => freshId
    name := form.name
    store := form.store
    url := form.url
    currentPrice := form.currentPrice
    targetPrice := form.targetPrice
    currency := jsOrD form.currencyCode (jsOrStrD prefCurrency "TRY")
    lastChecked := nowIso
    status := if jsLe form.currentPrice form.targetPrice then "Target hit" else "Tracking"
    addedBy := form.addedBy
    notificationEmail := match contact with | some c => c.email | none => ""
    frequency := form.frequency
    lastNotification := none }

/-! ## Demo-mode state store (`loadState`/`saveState`, demo branch) -/

/-- A JSON value, the result of `JSON.parse` on a stored demo aggregate. -/
inductive Json where
  | null
  | bool (b : Bool)
  | num (q : ℚ)
  | str (s : String)
  | arr (elems : List Json)
  | obj (fields : List (String × Json))

/-- JS truthiness of a JSON value (arrays and objects are always truthy). -/
def Json.truthy : Json → Bool
  | .null => false
  | .bool b => b
  | .num q => decide (q ≠ 0)
  | .str s => decide (s ≠ "")
  | .arr _ => true
  | .obj _ => true

/-- Own-property lookup on a parsed JSON object; with duplicate keys the last
occurrence wins, as in `JSON.parse`. -/
def jsObjLookup : List (String × Json) → String → Option Json
  | [], _ => none
  | (k, v) :: rest, key =>
      match jsObjLookup rest key with
      | some v2 => some v2
      | none => if k = key then some v else none

/-- JS property access `j.key` on a parsed JSON value: throws (`TypeError`)
on `null`, yields `undefined` (`none`) on non-objects, looks up the field on
objects. -/
def jsGet (j : Json) (key : String) : Except Unit (Option Json) :=
  match j with
  | .null => .error ()
  | .obj fields => .ok (jsObjLookup fields key)
  | _ => .ok none

/-- JS `a || d` where `a` is a possibly-`undefined` JSON property value. -/
def jsOrJ (a : Option Json) (d : Json) : Json :=
  match a with
  | some v => if v.truthy then v else d
  | none => d

/-- What sits under the demo storage key: either a string that is not valid
JSON (`corrupt`, on which `JSON.parse` throws) or a string that parses to the
JSON value `j`. -/
inductive StoredValue where
  | corrupt
  | val (j : Json)

/-- The `{items, notifications, preferences}` aggregate returned by the
demo-mode `loadState`. -/
structure LoadedAgg where
  items : Json
  notifications : Json
  preferences : Json

/-- `SAMPLE_DATA.preferences` (app.js) as JSON. -/
def samplePrefsJson : Json :=
  .obj
    [("fullName", .str "Ogulcan Aydogan"),
     ("email", .str "ogulcan@example.com"),
     ("timezone", .str "Europe/Istanbul"),
     ("currency", .str "TRY"),
     ("theme", .str "Aurora"),
     ("digestTime", .str "08:00"),
     ("dailyDigest", .bool true),
     ("smsAlerts", .bool false),
     ("familyTags", .bool true),
     ("contacts", .arr
       [.obj [("name", .str "Ogulcan"), ("email", .str "ogulcan@example.com"), ("phone", .str "+905551112233")],
        .obj [("name", .str "Muge"), ("email", .str "muge@example.com"), ("phone", .str "+905551112244")],
        .obj [("name", .str "Basak"), ("email", .str "basak@example.com"), ("phone", .str "+905551112255")],
        .obj [("name", .str "Guest"), ("email", .str "guest@example.com"), ("phone", .str "")]])]

/-- `SAMPLE_DATA.items` (app.js) as JSON. -/
def sampleItemsJson : Json :=
  .arr
    [.obj
      [("id", .str "itm-1"), ("name", .str "Camper Oruga Sandals"),
       ("store", .str "Camper EU"),
       ("url", .str "https://www.camper.com/en_WA/women/sandals/product.oruga"),
       ("currentPrice", .num 128), ("targetPrice", .num 110),
       ("currency", .str "EUR"), ("lastChecked", .str "2026-01-10T07:45:00Z"),
       ("status", .str "Tracking"), ("addedBy", .str "Ogulcan"),
       ("notificationEmail", .str "ogulcan@example.com"),
       ("frequency", .str "Every 12 hours"),
       ("lastNotification", .str "2026-01-06T20:15:00Z")],
     .obj
      [("id", .str "itm-2"), ("name", .str "Dyson V15 Detect"),
       ("store", .str "Amazon UK"),
       ("url", .str "https://www.amazon.co.uk/dp/B08H93ZRK9"),
       ("currentPrice", .num 529), ("targetPrice", .num 499),
       ("currency", .str "GBP"), ("lastChecked", .str "2026-01-10T09:05:00Z"),
       ("status", .str "Watching"), ("addedBy", .str "Muge"),
       ("notificationEmail", .str "muge@example.com"),
       ("frequency", .str "Daily"), ("lastNotification", .null)],
     .obj
      [("id", .str "itm-3"), ("name", .str "LEGO NASA Artemis Rocket"),
       ("store", .str "LEGO Store"),
       ("url", .str "https://www.lego.com/product/artemis-rocket"),
       ("currentPrice", .num 119), ("targetPrice", .num 99),
       ("currency", .str "GBP"), ("lastChecked", .str "2026-01-09T21:40:00Z"),
       ("status", .str "Target hit"), ("addedBy", .str "Basak"),
       ("notificationEmail", .str "basak@example.com"),
       ("frequency", .str "Every 6 hours"),
       ("lastNotification", .str "2026-01-09T21:45:00Z")]]

/-- `SAMPLE_DATA.notifications` (app.js) as JSON. -/
def sampleNotifsJson : Json :=
  .arr
    [.obj
      [("id", .str "ntf-1"), ("itemId", .str "itm-3"),
       ("itemName", .str "LEGO NASA Artemis Rocket"),
       ("message", .str "Price dropped to £99.00 (target £99.00)."),
       ("channel", .str "Email"), ("sentAt", .str "2026-01-09T21:45:00Z")],
     .obj
      [("id", .str "ntf-2"), ("itemId", .str "itm-1"),
       ("itemName", .str "Camper Oruga Sandals"),
       ("message", .str "Quick heads-up! Price dipped to £112.00."),
       ("channel", .str "Push"), ("sentAt", .str "2026-01-06T20:15:00Z")]]

/-- The whole `SAMPLE_DATA` constant (app.js) as JSON, with its source field
order `preferences, items, notifications`. -/
def sampleDataJson : Json :=
  .obj [("preferences", samplePrefsJson), ("items", sampleItemsJson),
        ("notifications", sampleNotifsJson)]

/-- `structuredClone(SAMPLE_DATA)` viewed through the aggregate fields the
callers read. -/
def sampleAgg : LoadedAgg :=
  ⟨sampleItemsJson, sampleNotifsJson, samplePrefsJson⟩

/-- The `try` block of the demo branch of `loadState` (app.js): read the three
fields of the parsed value, each defaulted when falsy; property access on a
parsed `null` throws. -/
def loadDemoTry (j : Json) : Except Unit LoadedAgg := do
  let items? ← jsGet j "items"
  let notifs? ← jsGet j "notifications"
  let prefs? ← jsGet j "preferences"
  .ok ⟨jsOrJ items? (.arr []), jsOrJ notifs? (.arr []), jsOrJ prefs? samplePrefsJson⟩

/-- The demo branch of `loadState` (app.js), as a function of the stored demo
value, returning the aggregate and the storage contents afterwards: an absent
key is seeded from the sample dataset, a parse/access failure removes the
stored value and falls back to the sample dataset. -/
def loadStateDemo (storage : Option StoredValue) : LoadedAgg × Option StoredValue :=
  match storage with
  | none => (sampleAgg, some (.val sampleDataJson))
  | some .corrupt => (sampleAgg, none)
  | some (.val j) =>
      match loadDemoTry j with
      | .ok agg => (agg, some (.val j))
      | .error _ => (sampleAgg, none)

/-- A well-formed (JSON-serializable) demo watch item as persisted by the
demo-mode add-item flow: finite prices, string metadata, nullable
`lastNotification`. -/
structure StoredItem where
  id : String
  name : String
  store : String
  url : String
  currentPrice : ℚ
  targetPrice : ℚ
  currency : String
  lastChecked : String
  status : String
  addedBy : String
  notificationEmail : String
  frequency : String
  lastNotification : Option String
deriving DecidableEq, Repr

/-- `JSON.stringify`s view of one stored item, with the field order of the
`newItem` literal in `handleAddItem`. -/
def encodeStoredItem (it : StoredItem) : Json :=
  .obj
    [("id", .str it.id), ("name", .str it.name), ("store", .str it.store),
     ("url", .str it.url), ("currentPrice", .num it.currentPrice),
     ("targetPrice", .num it.targetPrice), ("currency", .str it.currency),
     ("lastChecked", .str it.lastChecked), ("status", .str it.status),
     ("addedBy", .str it.addedBy),
     ("notificationEmail", .str it.notificationEmail),
     ("frequency", .str it.frequency),
     ("lastNotification", match it.lastNotification with
       | some s => .str s
       | none => .null)]

/-- Read a string field of a decoded item. -/
def jsonFieldStr (o : Option Json) : Option String :=
  match o with
  | some (.str s) => some s
  | _ => none

/-- Read a numeric field of a decoded item. -/
def jsonFieldNum (o : Option Json) : Option ℚ :=
  match o with
  | some (.num q) => some q
  | _ => none

/-- Read a nullable string field of a decoded item. -/
def jsonFieldStrN (o : Option Json) : Option (Option String) :=
  match o with
  | some (.str s) => some (some s)
  | some .null => some none
  | _ => none

/-- Decode a stored item back from its JSON form (used to state that the
demo round-trip preserves every field of an item). -/
def decodeStoredItem (j : Json) : Option StoredItem :=
  match j with
  | .obj fs => do
      let id ← jsonFieldStr (jsObjLookup fs "id")
      let name ← jsonFieldStr (jsObjLookup fs "name")
      let store ← jsonFieldStr (jsObjLookup fs "store")
      let url ← jsonFieldStr (jsObjLookup fs "url")
      let currentPrice ← jsonFieldNum (jsObjLookup fs "currentPrice")
      let targetPrice ← jsonFieldNum (jsObjLookup fs "targetPrice")
      let currency ← jsonFieldStr (jsObjLookup fs "currency")
      let lastChecked ← jsonFieldStr (jsObjLookup fs "lastChecked")
      let status ← jsonFieldStr (jsObjLookup fs "status")
      let addedBy ← jsonFieldStr (jsObjLookup fs "addedBy")
      let notificationEmail ← jsonFieldStr (jsObjLookup fs "notificationEmail")
      let frequency ← jsonFieldStr (jsObjLookup fs "frequency")
      let lastNotification ← jsonFieldStrN (jsObjLookup fs "lastNotification")
      pure ⟨id, name, store, url, currentPrice, targetPrice, currency,
            lastChecked, status, addedBy, notificationEmail, frequency,
            lastNotification⟩
  | _ => none

/-- A well-formed in-memory demo aggregate (the object `loadState` returns and
`handleAddItem` mutates). -/
structure DemoState where
  items : List StoredItem
  notifications : List Json
  preferences : List (String × Json)

/-- The aggregate as `JSON.stringify` serializes it (field order of the object
built in `loadState`). -/
def encodeDemoState (st : DemoState) : Json :=
  .obj [("items", .arr (st.items.map encodeStoredItem)),
        ("notifications", .arr st.notifications),
        ("preferences", .obj st.preferences)]

/-- Source `saveState` (app.js), demo branch:
`localStorage.setItem(STORAGE_KEY, JSON.stringify(state))`. -/
def saveStateDemo (st : DemoState) : Option StoredValue :=
  some (.val (encodeDemoState st))

/-- The demo branch of the add-item submit for a new (non-editing) item:
`state.items.unshift(newItem)` — the item is prepended. -/
def addItemDemo (st : DemoState) (it : StoredItem) : DemoState :=
  { st with items := it :: st.items }

/-! ## Live-mode state store (`loadState`, live branch) -/

/-- A raw notification payload entry, before normalization. -/
structure RawNotif where
  id : Option String
  notification_id : Option String
  item_id : Option String
  itemId : Option String
  item_name : Option String
  itemName : Option String
  message : Option String
  channel : Option String
  sent_at : Option String
  sentAt : Option String
deriving DecidableEq, Repr

/-- The normalized notification produced by `normalizeApiNotification`. -/
structure NormNotif where
  id : Option String
  itemId : Option String
  itemName : Option String
  message : Option String
  channel : String
  sentAt : Option String
deriving DecidableEq, Repr

/-- Source `normalizeApiNotification` (app.js). -/
def normalizeApiNotification (n : Option RawNotif) : Option NormNotif :=
  match n with
  | none => none
  | some x =>
      some
        { id := jsOrStr x.id x.notification_id
          itemId := jsOrStr x.item_id x.itemId
          itemName := jsOrStr x.item_name x.itemName
          message := x.message
          channel := jsOrStrD x.channel "Email"
          sentAt := jsOrStr x.sent_at x.sentAt }

/-- Shape of the items response: an array (possibly holding `null` entries),
`null` (e.g. an empty 204 response), or an object whose `items` field is an
item array or missing/falsy (`none`). -/
inductive ItemsPayload where
  | nullP
  | listP (xs : List (Option RawItem))
  | objP (items : Option (List (Option RawItem)))

/-- Shape of the notifications response, analogously. -/
inductive NotifsPayload where
  | nullN
  | listN (xs : List (Option RawNotif))
  | objN (ns : Option (List (Option RawNotif)))

/-- The `normalizeItems` helper of the live `loadState` (app.js):
`Array.isArray(payload) ? payload : payload?.items || []`, then
`.map(normalizeApiItem).filter(Boolean)`. -/
def normalizeItemsPayload (p : ItemsPayload) : List NormItem :=
  match p with
  | .listP xs => xs.filterMap normalizeApiItem
  | .nullP => []
  | .objP none => []
  | .objP (some xs) => xs.filterMap normalizeApiItem

/-- The `normalizeNotifications` helper of the live `loadState` (app.js). -/
def normalizeNotifsPayload (p : NotifsPayload) : List NormNotif :=
  match p with
  | .listN xs => xs.filterMap normalizeApiNotification
  | .nullN => []
  | .objN none => []
  | .objN (some xs) => xs.filterMap normalizeApiNotification

/-- The aggregate resolved by the live `loadState`; `warned` records whether
the catch-all path fired its user-visible toast. -/
structure LiveAgg where
  items : List NormItem
  notifications : List NormNotif
  preferences : Json
  warned : Bool

/-- The live branch of `loadState` (app.js) as a function of the two fetch
outcomes. `getNotifications().catch(() => [])` turns a notifications failure
into an empty-array payload before `Promise.all`, so only an items failure
reaches the outer catch (empty aggregate plus warning toast). -/
def loadStateLive (itemsRes : Except Unit ItemsPayload)
    (notifsRes : Except Unit NotifsPayload) : LiveAgg :=
  let notifsPayload : NotifsPayload :=
    match notifsRes with
    | .error _ => .listN []
    | .ok p => p
  match itemsRes with
  | .ok ip =>
      { items := normalizeItemsPayload ip
        notifications := normalizeNotifsPayload notifsPayload
        preferences := samplePrefsJson
        warned := false }
  | .error _ =>
      { items := [], notifications := [], preferences := samplePrefsJson,
        warned := true }

/-! ## Dashboard delete flow (`attachDashboardActions`) -/

/-- A rendered watchlist row as the delete/edit handlers see it: an item that
may carry an API-shaped `item_id` and/or a client-shaped `id`. -/
structure RowItem where
  item_id : Option String
  id : Option String
deriving DecidableEq, Repr

/-- Source `resolveItemId` (app.js): `item?.item_id || item?.id || ""`. -/
def resolveItemId (r : RowItem) : String :=
  jsOrStrD (jsOrStr r.item_id r.id) ""

/-- The state of the delete button (`disabled` flag and label). -/
structure BtnState where
  disabled : Bool
  label : String
deriving DecidableEq, Repr

/-- The delete branch of `attachDashboardActions` (app.js) as a function of
the mode, the current items, the clicked id, and the remote delete outcome.
An empty id returns before the button is touched. In live mode the remote
delete runs first; the catch re-enables the button and restores the literal
`"Remove"` label (the label the dashboard renders) and leaves the items
untouched; only on success is the item filtered out (the button of its row
stays `"Removing…"` until the re-render drops it). The demo branch removes
synchronously (its `saveState` persistence is modelled by `saveStateDemo`
separately). -/
def dashboardDelete (demoMode : Bool) (items : List RowItem) (itemId : String)
    (server : Except Unit Unit) : List RowItem × BtnState :=
  if itemId = "" then (items, ⟨false, "Remove"⟩)
  else if demoMode then
    (items.filter (fun it => resolveItemId it ≠ itemId), ⟨true, "Removing…"⟩)
  else
    match server with
    | .ok _ => (items.filter (fun it => resolveItemId it ≠ itemId), ⟨true, "Removing…"⟩)
    | .error _ => (items, ⟨false, "Remove"⟩)

/-! ## Session / guest identity gate (auth module, `src/unnamed/part_001`)

The repository carries two versions of the Cognito auth module; the one at
`src/unnamed/part_001` is the one implementing the token-expiry check
(`isTokenExpired`, 60-second safety margin) that `getCurrentSession` and
`isAuthenticated` apply. That version is embedded here. -/

/-- A persisted JWT string together with the result of `decodeJwtPayload` on
it: `none` when the payload cannot be decoded, otherwise the optional numeric
`exp` claim (seconds since epoch; `none` models an absent claim). -/
structure Jwt where
  raw : String
  payload : Option (Option Int)
deriving DecidableEq, Repr

/-- Source `isTokenExpired` (auth module): a missing/empty token, an
undecodable payload, or a missing/zero `exp` counts as expired; otherwise the
token is expired once `Date.now()` reaches `exp * 1000` minus the 60-second
buffer. `now` is in milliseconds. -/
def isTokenExpired (token : Option Jwt) (now : Int) : Bool :=
  match token with
  | none => true
  | some t =>
      if t.raw = "" then true
      else
        match t.payload with
        | none => true
        | some none => true
        | some (some e) =>
            if e = 0 then true
            else decide (now ≥ e * 1000 - 60 * 1000)

/-- The persisted session material: the three independently stored keys
`pricepulse_idToken`, `pricepulse_accessToken`, `pricepulse_username`. -/
structure AuthStorage where
  idToken : Option Jwt
  accessToken : Option String
  username : Option String
deriving DecidableEq, Repr

/-- Storage after every session key has been removed. -/
def clearedAuthStorage : AuthStorage := ⟨none, none, none⟩

/-- Source `signOut` (auth module): clears the in-memory fields and removes
all three persisted keys. -/
def authSignOut (_st : AuthStorage) : AuthStorage := clearedAuthStorage

/-- The session object `getCurrentSession` resolves with. -/
structure AuthSession where
  username : String
  idToken : Jwt
  accessToken : String
deriving DecidableEq, Repr

/-- Truthiness of a stored token value. -/
def tokTruthy : Option Jwt → Bool
  | none => false
  | some t => decide (t.raw ≠ "")

/-- Source `getCurrentSession` (auth module, expiry-checking version): when
all three keys are present and truthy, an expired id token triggers
`signOut()` (clearing all persisted material) and resolves `null`; otherwise
the session is returned. Resolves `null` without touching storage when any
key is missing. -/
def getCurrentSession (st : AuthStorage) (now : Int) :
    Option AuthSession × AuthStorage :=
  match st.idToken, st.accessToken, st.username with
  | some t, some a, some u =>
      if t.raw ≠ "" ∧ a ≠ "" ∧ u ≠ "" then
        if isTokenExpired (some t) now then (none, authSignOut st)
        else (some ⟨u, t, a⟩, st)
      else (none, st)
  | _, _, _ => (none, st)

/-- Source `isAuthenticated` (auth module, expiry-checking version):
`this.idToken || localStorage` token, absent means false, otherwise the
negation of `isTokenExpired`. `mem` is the services in-memory `idToken`. -/
def isAuthenticated (mem : Option Jwt) (st : AuthStorage) (now : Int) : Bool :=
  let token := if tokTruthy mem then mem else st.idToken
  if tokTruthy token then ! isTokenExpired token now else false

/-! ## Concrete inputs used by counterexamples and witnesses -/

/-- A raw item whose current price (100) is at or below its target (200) but
whose incoming status text is `"tracking"`. -/
def c1RawItem : RawItem :=
  { emptyRawItem with
      current_price := .vNum (.finite 100)
      target_price := .vNum (.finite 200)
      status := some "tracking" }

/-- A raw item whose target price is the finite number 5. -/
def c2RawWitness : RawItem :=
  { emptyRawItem with target_price := .vNum (.finite 5) }

/-- A raw item whose status text contains two underscores. -/
def c9RawItem : RawItem :=
  { emptyRawItem with status := some "price_drop_alert" }

/-- Length of a JSON array (0 on non-arrays). -/
def jsonArrLen : Json → ℕ
  | .arr l => l.length
  | _ => 0

/-- First element of a JSON array, if any. -/
def jsonArrHead : Json → Option Json
  | .arr (x :: _) => some x
  | _ => none

/-! ## Shared lemmas -/

/-- `toNumber` only ever returns a finite number or null. -/
theorem toNumber_finite (v : JSValue) (x : JSNum) (h : toNumber v = some x) :
    x.isFinite = true := by
  cases v <;> simp only [toNumber] at h <;> try exact Option.noConfusion h
  all_goals
    split at h
    next hc => cases Option.some.inj h; exact hc
    next => exact Option.noConfusion h

/-- A string-pattern `replace("_", " ")` on a string whose first underscore
separates `s` and `t` replaces exactly that underscore. -/
theorem replaceFirstAux_underscore (s t : List Char)
    (hs : ∀ c ∈ s, c ≠ '_') :
    replaceFirstAux ['_'] [' '] (s ++ '_' :: t) = s ++ ' ' :: t := by
  induction s with
  | nil => simp [replaceFirstAux, startsWithL]
  | cons c cs ih =>
      have hc : c ≠ '_' := hs c (by simp)
      have hstep : startsWithL ['_'] (c :: (cs ++ '_' :: t)) = false := by
        simp [startsWithL]
        intro hcc
        exact absurd hcc.symm hc
      have ih2 := ih (fun d hd => hs d (by simp [hd]))
      simp [replaceFirstAux, hstep, ih2]

/-- Round-tripping one stored item through its JSON encoding preserves every
field. -/
theorem decodeStoredItem_encodeStoredItem (it : StoredItem) :
    decodeStoredItem (encodeStoredItem it) = some it := by
  rcases it with ⟨i, nm, s, u, cp, tp, c, lc, stt, ab, ne, f, ln⟩
  cases ln <;> rfl

/-! ## Claim theorems -/

/-- Claim C1, counterexample: `normalizeApiItem` does not apply the
target-hit rule. On a raw item with current price 100 at or below target 200
and input status `"tracking"`, the normalized status is `"Tracking"`, not
`"Target hit"`. -/
theorem c1_counterexample :
    (normalizeApiItem (some c1RawItem)).map NormItem.currentPrice = some (some (.finite 100))
  ∧ (normalizeApiItem (some c1RawItem)).map NormItem.targetPrice = some (some (.finite 200))
  ∧ jsLe (.finite 100) (.finite 200) = true
  ∧ (normalizeApiItem (some c1RawItem)).map NormItem.status = some "Tracking"
  ∧ "Tracking" ≠ "Target hit" :=
  ⟨by decide, by decide, by decide, by decide, by decide⟩

/-- Claim C1 (amended): at form submit the status is `"Target hit"` exactly
when `Number(currentPrice) <= Number(targetPrice)` in JS semantics, and
`"Tracking"` otherwise; `normalizeApiItem` instead preserves the incoming
status text unchanged by the price fields. -/
theorem addItem_status_iff_target_hit (form : AddItemForm) (editingId : Option String)
    (freshId nowIso : String) (prefCurrency : Option String)
    (prefsContacts : Option (List Contact)) (it : RawItem) (p₁ p₂ p₃ p₄ : JSValue) :
    ((buildNewItem form editingId freshId nowIso prefCurrency prefsContacts).status = "Target hit"
      ↔ jsLe form.currentPrice form.targetPrice = true)
  ∧ (jsLe form.currentPrice form.targetPrice = false →
      (buildNewItem form editingId freshId nowIso prefCurrency prefsContacts).status = "Tracking")
  ∧ (normalizeApiItem (some { it with
        last_price := p₁
        current_price := p₂
        target_price := p₃
        targetPrice := p₄ })).map NormItem.status
      = (normalizeApiItem (some it)).map NormItem.status := by
  refine ⟨?_, ?_, rfl⟩
  · by_cases h : jsLe form.currentPrice form.targetPrice <;> simp [buildNewItem, h]
  · intro h
    simp [buildNewItem, h]

/-- Claim C1, witness: a concrete submit with current price 9 above target 3
yields status `"Tracking"`. -/
theorem c1_witness :
    jsLe (.finite 9) (.finite 3) = false
  ∧ (buildNewItem ⟨"n", "s", "u", "Guest", "Daily", "EUR", .finite 9, .finite 3⟩
        none "itm-1" "t0" none none).status = "Tracking" :=
  ⟨by decide,
   (addItem_status_iff_target_hit ⟨"n", "s", "u", "Guest", "Daily", "EUR", .finite 9, .finite 3⟩
      none "itm-1" "t0" none none emptyRawItem .vUndef .vUndef .vUndef .vUndef).2.1
     (by decide)⟩

/-- Claim C2: `normalizeApiItem` maps a null/undefined input to null, and on
every raw item the normalized current and target prices are each a finite
number or null — never `NaN`. -/
theorem normalizeApiItem_total_prices :
    normalizeApiItem none = none
  ∧ ∀ (it : RawItem) (n : NormItem), normalizeApiItem (some it) = some n →
      (∀ x, n.currentPrice = some x → x.isFinite = true)
      ∧ (∀ x, n.targetPrice = some x → x.isFinite = true) := by
  refine ⟨rfl, ?_⟩
  intro it n h
  simp only [normalizeApiItem] at h
  cases Option.some.inj h
  exact ⟨fun x hx => toNumber_finite _ x hx, fun x hx => toNumber_finite _ x hx⟩

/-- Claim C2, witness: on a concrete raw item with target price 5 the
normalized target price is the finite 5. -/
theorem c2_witness : (JSNum.finite 5).isFinite = true :=
  (normalizeApiItem_total_prices.2 c2RawWitness _ rfl).2 (.finite 5) rfl

/-- Claim C3, counterexample: on `"camper.com/en/sandals/product.oruga"` the
heuristic yields store `"Camper Com"` (the `"com"` segment is kept) and name
`"Product"` (the `".oruga"` tail is stripped as a file extension), not
`"Camper"`/`"Product Oruga"`. -/
theorem c3_counterexample :
    guessDetailsFromUrl "camper.com/en/sandals/product.oruga" = some ⟨"Product", "Camper Com"⟩
  ∧ "Camper Com" ≠ "Camper"
  ∧ "Product" ≠ "Product Oruga" :=
  ⟨by decide, by decide, by decide⟩

/-- Claim C3 (amended): the heuristic on
`"camper.com/en/sandals/product.oruga"` returns the store derived by
`formatStoreName` from the host — `"Camper Com"` — and the non-empty
title-cased name `"Product"` obtained from the last path segment
`"product.oruga"` after extension stripping. -/
theorem guessDetails_camper :
    guessDetailsFromUrl "camper.com/en/sandals/product.oruga" = some ⟨"Product", "Camper Com"⟩
  ∧ formatStoreName "camper.com" = "Camper Com"
  ∧ "Product" ≠ ""
  ∧ toTitleCase "Product" = "Product" :=
  ⟨by decide, by decide, by decide, by decide⟩

/-- Claim C4: a stored demo value that is not valid JSON makes `loadState`
return the sample dataset and remove the corrupt value from storage; the
parse error never escapes. -/
theorem loadStateDemo_corrupt :
    loadStateDemo (some .corrupt) = (sampleAgg, none) := rfl

/-- Claim C5: in live mode a failed notifications fetch alongside a
successful items fetch still resolves, with the same normalized items as any
successful notifications fetch would give and an empty notifications
array. -/
theorem loadStateLive_notifs_failure (p : ItemsPayload) (np : NotifsPayload) :
    (loadStateLive (.ok p) (.error ())).warned = false
  ∧ (loadStateLive (.ok p) (.error ())).notifications = []
  ∧ (loadStateLive (.ok p) (.error ())).items = (loadStateLive (.ok p) (.ok np)).items :=
  ⟨rfl, rfl, rfl⟩

/-- Claim C6: in live mode a failed remote delete leaves the items (hence the
rendered list) unchanged and restores the enabled `"Remove"` control; only a
successful delete filters the item out. -/
theorem dashboardDelete_live (items : List RowItem) (itemId : String)
    (h : itemId ≠ "") :
    dashboardDelete false items itemId (.error ()) = (items, ⟨false, "Remove"⟩)
  ∧ (dashboardDelete false items itemId (.ok ())).1
      = items.filter (fun it => resolveItemId it ≠ itemId) := by
  constructor <;> simp [dashboardDelete, h]

/-- Claim C6, witness: a concrete failed delete of `"itm-1"` keeps the row
and restores the control. -/
theorem c6_witness :
    ("itm-1" : String) ≠ ""
  ∧ dashboardDelete false [⟨none, some "itm-1"⟩] "itm-1" (.error ())
      = ([⟨none, some "itm-1"⟩], ⟨false, "Remove"⟩) :=
  ⟨by decide, (dashboardDelete_live [⟨none, some "itm-1"⟩] "itm-1" (by decide)).1⟩

/-- Claim C7: demo round-trip — prepending one item, saving and reloading
keeps the storage in sync, yields the previous item count plus one, and the
newly added item decodes back with every field intact. -/
theorem demo_roundtrip (st : DemoState) (it : StoredItem) :
    loadStateDemo (saveStateDemo (addItemDemo st it)) =
      (⟨.arr ((it :: st.items).map encodeStoredItem), .arr st.notifications,
        .obj st.preferences⟩,
       saveStateDemo (addItemDemo st it))
  ∧ jsonArrLen ((loadStateDemo (saveStateDemo (addItemDemo st it))).1.items)
      = st.items.length + 1
  ∧ ((jsonArrHead ((loadStateDemo (saveStateDemo (addItemDemo st it))).1.items)).bind
        decodeStoredItem) = some it := by
  refine ⟨rfl, ?_, ?_⟩
  · show jsonArrLen (.arr ((it :: st.items).map encodeStoredItem)) = st.items.length + 1
    simp [jsonArrLen]
  · show ((jsonArrHead (.arr (encodeStoredItem it :: st.items.map encodeStoredItem))).bind
        decodeStoredItem) = some it
    simp [jsonArrHead, decodeStoredItem_encodeStoredItem]

/-- Claim C8: the session gate — sign-out clears all persisted session
material; a complete persisted session whose token is past its 60-second
safety-margin expiry is force-transitioned to anonymous with all keys
cleared; and whenever `isAuthenticated` holds, the effective token is not
past its safety-margin-adjusted expiry. -/
theorem auth_session_gate (st : AuthStorage) (mem : Option Jwt) (now : Int) :
    authSignOut st = clearedAuthStorage
  ∧ (∀ t a u, st.idToken = some t → st.accessToken = some a → st.username = some u →
        t.raw ≠ "" → a ≠ "" → u ≠ "" →
        isTokenExpired (some t) now = true →
        getCurrentSession st now = (none, clearedAuthStorage))
  ∧ (isAuthenticated mem st now = true →
        isTokenExpired (if tokTruthy mem then mem else st.idToken) now = false) := by
  refine ⟨rfl, ?_, ?_⟩
  · intro t a u ht ha hu ht' ha' hu' hexp
    simp [getCurrentSession, ht, ha, hu, ht', ha', hu', hexp, authSignOut]
  · intro h
    simp only [isAuthenticated] at h
    by_cases htt : tokTruthy (if tokTruthy mem then mem else st.idToken)
    · simpa [htt] using h
    · simp [htt] at h

/-- Claim C8, witness: a concrete persisted token with `exp = 1000` seconds is
expired at `now = 1000000` milliseconds and forces the cleared-storage
transition. -/
theorem c8_witness :
    isTokenExpired (some ⟨"tok", some (some 1000)⟩) 1000000 = true
  ∧ getCurrentSession ⟨some ⟨"tok", some (some 1000)⟩, some "acc", some "user"⟩ 1000000
      = (none, clearedAuthStorage) :=
  ⟨by decide,
   (auth_session_gate ⟨some ⟨"tok", some (some 1000)⟩, some "acc", some "user"⟩
      none 1000000).2.1 ⟨"tok", some (some 1000)⟩ "acc" "user" rfl rfl rfl
      (by decide) (by decide) (by decide) (by decide)⟩

/-- Claim C9, counterexample: only the first underscore of the status text is
replaced: `"price_drop_alert"` normalizes to `"Price Drop_alert"`, not
`"Price Drop Alert"`. -/
theorem c9_counterexample :
    (normalizeApiItem (some c9RawItem)).map NormItem.status = some "Price Drop_alert"
  ∧ "Price Drop_alert" ≠ "Price Drop Alert" :=
  ⟨by decide, by decide⟩

/-- Claim C9 (amended): the status normalization title-cases the text after
replacing only the first underscore with a space: for any underscore-free
prefix `s`, `s ++ "_" ++ t` normalizes like `s ++ " " ++ t`, whatever
underscores remain in `t`. -/
theorem statusFromRaw_first_underscore (s t : String)
    (hs : ∀ c ∈ s.data, c ≠ '_') :
    statusFromRaw (some (s ++ "_" ++ t)) = toTitleCase (s ++ " " ++ t) := by
  have hdata : (s ++ "_" ++ t).data = s.data ++ '_' :: t.data := by
    simp [String.data_append]
  have hdata2 : (s ++ " " ++ t).data = s.data ++ ' ' :: t.data := by
    simp [String.data_append]
  have hne : (s ++ "_" ++ t) ≠ "" := by
    intro hcontra
    have := congrArg String.data hcontra
    rw [hdata] at this
    simp at this
  show toTitleCase (replaceFirstStr "_" " " (jsOrStrD (some (s ++ "_" ++ t)) "Tracking"))
      = toTitleCase (s ++ " " ++ t)
  have hval : jsOrStrD (some (s ++ "_" ++ t)) "Tracking" = s ++ "_" ++ t := by
    simp [jsOrStrD, hne]
  rw [hval]
  have hrep : replaceFirstStr "_" " " (s ++ "_" ++ t) = s ++ " " ++ t := by
    unfold replaceFirstStr
    rw [hdata]
    rw [replaceFirstAux_underscore s.data t.data hs]
    apply String.ext
    rw [hdata2]
  rw [hrep]

/-- Claim C9, witness: the single-underscore status `"target_hit"` normalizes
to `"Target Hit"`. -/
theorem c9_witness :
    statusFromRaw (some ("target" ++ "_" ++ "hit")) = toTitleCase ("target" ++ " " ++ "hit")
  ∧ toTitleCase ("target" ++ " " ++ "hit") = "Target Hit" :=
  ⟨statusFromRaw_first_underscore "target" "hit" (by decide), by decide⟩

/-- Claim C10: a stored demo value parsing to a JSON object is repaired
field-wise (falsy/missing `items` and `notifications` become `[]`, falsy or
missing `preferences` becomes the sample preferences) with the stored value
kept; the stored string `"null"` parses but fails on property access and
falls back to the full sample dataset with the stored value removed. -/
theorem loadStateDemo_object_repair :
    (∀ fs : List (String × Json),
        loadStateDemo (some (.val (.obj fs))) =
          ({ items := jsOrJ (jsObjLookup fs "items") (.arr [])
             notifications := jsOrJ (jsObjLookup fs "notifications") (.arr [])
             preferences := jsOrJ (jsObjLookup fs "preferences") samplePrefsJson },
           some (.val (.obj fs))))
  ∧ loadStateDemo (some (.val .null)) = (sampleAgg, none) :=
  ⟨fun _ => rfl, rfl⟩

end PricePulse
